import Mathlib

/-!
Verification of the insurance cost estimation engine in
`src/New_insurance.py` (class `InsurancePredictor`).

The engine is embedded shallowly over ℚ: applicant fields are integers
and a rational BMI, money amounts are rationals, and the random jitter
factor drawn by `random.uniform(0.9, 1.1)` is made an explicit parameter
`variation`.  Python's `round(x, 2)` (round half to even) is modelled by
`round2` below.  The dictionary lookup `region_factors[region]`, which
raises `KeyError` off-domain, is modelled with `Option`, and the
`try/except` wrapper `predict` turns the missing key into a failure value.
-/

namespace Insurance

/-- The input record passed to the predictor: `age`, `sex` (0 = female,
1 = male), `bmi`, `children`, `smoker` (0 = no, 1 = yes), `region`
(0 = northeast, 1 = northwest, 2 = southeast, 3 = southwest). -/
structure ApplicantInput where
  age : ℤ
  sex : ℤ
  bmi : ℚ
  children : ℤ
  smoker : ℤ
  region : ℤ
  deriving Repr, DecidableEq

/-- The in-domain predicate of the spec: age∈[18,80], sex∈{0,1},
bmi∈[15,50], children∈[0,10], smoker∈{0,1}, region∈{0,1,2,3}. -/
def InDomain (i : ApplicantInput) : Prop :=
  18 ≤ i.age ∧ i.age ≤ 80 ∧ (i.sex = 0 ∨ i.sex = 1) ∧
  (15 : ℚ) ≤ i.bmi ∧ i.bmi ≤ 50 ∧ 0 ≤ i.children ∧ i.children ≤ 10 ∧
  (i.smoker = 0 ∨ i.smoker = 1) ∧
  (i.region = 0 ∨ i.region = 1 ∨ i.region = 2 ∨ i.region = 3)

instance (i : ApplicantInput) : Decidable (InDomain i) := by
  unfold InDomain; infer_instance

/-- Round half to even, the tie-breaking rule of Python's `round`. -/
def roundHalfEven (x : ℚ) : ℤ :=
  if x - ⌊x⌋ < 1/2 then ⌊x⌋
  else if 1/2 < x - ⌊x⌋ then ⌊x⌋ + 1
  else if ⌊x⌋ % 2 = 0 then ⌊x⌋ else ⌊x⌋ + 1

/-- `round(x, 2)`: round to the nearest multiple of 1/100, half to even. -/
def round2 (x : ℚ) : ℚ := (roundHalfEven (100 * x) : ℚ) / 100

/-- `InsurancePredictor.get_bmi_category`: returns
(category, emoji, note, cost adjustment), first match wins. -/
def get_bmi_category (bmi : ℚ) : String × String × String × ℚ :=
  if bmi < 16 then
    ("Critical Underweight", "red", "Application may be rejected", 4000)
  else if bmi < 37/2 then
    ("Underweight", "orange", "High risk - may affect premium", 1500)
  else if bmi ≤ 25 then
    ("Healthy", "green", "Optimal range - lowest risk", 0)
  else if bmi ≤ 30 then
    ("Overweight", "yellow", "Moderate risk", 800)
  else
    ("Obese", "red", "High risk - significant premium impact", 2500)

/-- `InsurancePredictor.get_cost_level`: returns
(level, emoji, css class, recommendation), first match wins. -/
def get_cost_level (cost : ℚ) : String × String × String × String :=
  if cost < 5000 then
    ("Low", "green", "cost-low",
      "Affordable insurance range. Good health profile.")
  else if cost < 10000 then
    ("Medium", "yellow", "cost-medium",
      "Moderate insurance cost. Consider lifestyle improvements.")
  else if cost < 15000 then
    ("High", "orange", "cost-high",
      "High insurance cost. Recommended to review health factors.")
  else
    ("Very High", "red", "cost-high",
      "Very high insurance cost. Immediate health review recommended.")

/-- The `region_factors` dictionary inside `predict_insurance_cost`;
`none` models the `KeyError` raised on a missing key. -/
def region_factors (region : ℤ) : Option ℚ :=
  if region = 0 then some 0
  else if region = 1 then some (-200)
  else if region = 2 then some 400
  else if region = 3 then some 150
  else none

/-- `InsurancePredictor.predict_insurance_cost` with the random factor
`variation = random.uniform(0.9, 1.1)` passed explicitly.  Returns
(rounded cost, bmi category, bmi emoji, bmi note); `none` models the
`KeyError` escaping when the region key is absent. -/
def predict_insurance_cost (input_data : ApplicantInput) (variation : ℚ) :
    Option (ℚ × String × String × String) :=
  let base_cost : ℚ := 2000
  let age_factor : ℚ := (input_data.age : ℚ) * 100
  let bc := get_bmi_category input_data.bmi
  let bmi_category := bc.1
  let bmi_emoji := bc.2.1
  let bmi_note := bc.2.2.1
  let bmi_factor := bc.2.2.2
  let smoker_factor : ℚ := if input_data.smoker = 1 then 8500 else 0
  let children_factor : ℚ := (input_data.children : ℚ) * 600
  match region_factors input_data.region with
  | none => none
  | some region_factor =>
    let gender_factor : ℚ := if input_data.sex = 1 then 200 else 0
    let total_cost : ℚ :=
      base_cost + age_factor + bmi_factor + smoker_factor +
        children_factor + region_factor + gender_factor
    some (round2 (total_cost * variation), bmi_category, bmi_emoji, bmi_note)

/-- The deterministic raw total of `predict_insurance_cost` before the
jitter multiplication (the value of its local `total_cost`). -/
def rawTotal (input_data : ApplicantInput) : Option ℚ :=
  (region_factors input_data.region).map (fun region_factor =>
    2000 + (input_data.age : ℚ) * 100 +
      (get_bmi_category input_data.bmi).2.2.2 +
      (if input_data.smoker = 1 then (8500 : ℚ) else 0) +
      (input_data.children : ℚ) * 600 + region_factor +
      (if input_data.sex = 1 then (200 : ℚ) else 0))

/-- The success dictionary built by `InsurancePredictor.predict`. -/
structure PredictionOk where
  predicted_cost : ℚ
  cost_level : String
  cost_emoji : String
  cost_class : String
  recommendation : String
  bmi_category : String
  bmi_emoji : String
  bmi_note : String
  method : String
  deriving Repr, DecidableEq

/-- The value returned by `InsurancePredictor.predict`: either the
success dictionary or the `except` branch's
`{success: False, error: str(e)}`. -/
inductive PredictOutcome where
  | success (r : PredictionOk)
  | failure (error : String)
  deriving Repr, DecidableEq

/-- `str(KeyError(k))` for the region key: Python prints the repr of the
missing key. -/
def keyErrorMessage (region : ℤ) : String := toString region

/-- `InsurancePredictor.predict`, jitter passed explicitly. -/
def predict (input_data : ApplicantInput) (variation : ℚ) : PredictOutcome :=
  match predict_insurance_cost input_data variation with
  | some r =>
    let predicted_cost := r.1
    let bmi_category := r.2.1
    let bmi_emoji := r.2.2.1
    let bmi_note := r.2.2.2
    let cl := get_cost_level predicted_cost
    PredictOutcome.success
      ⟨predicted_cost, cl.1, cl.2.1, cl.2.2.1, cl.2.2.2,
        bmi_category, bmi_emoji, bmi_note,
        "Advanced Insurance Underwriting System"⟩
  | none => PredictOutcome.failure (keyErrorMessage input_data.region)

/-- The result dictionary produced for the sample applicant
{age 35, sex 0, bmi 22.5, children 1, smoker 0, region 0} with the
jitter factor fixed at 1. -/
def sampleResult : PredictionOk :=
  ⟨6100, "Medium", "yellow", "cost-medium",
    "Moderate insurance cost. Consider lifestyle improvements.",
    "Healthy", "green", "Optimal range - lowest risk",
    "Advanced Insurance Underwriting System"⟩

/-- The BMI band table in the words of the spec (§4.1), with both range
ends written out: category and cost adjustment per band. -/
def specBmiBand (bmi : ℚ) : String × ℚ :=
  if bmi < 16 then ("Critical Underweight", 4000)
  else if 16 ≤ bmi ∧ bmi < 37/2 then ("Underweight", 1500)
  else if 37/2 ≤ bmi ∧ bmi ≤ 25 then ("Healthy", 0)
  else if 25 < bmi ∧ bmi ≤ 30 then ("Overweight", 800)
  else ("Obese", 2500)

/-- The cost-level band table in the words of the spec (§4.3), with both
range ends written out. -/
def specCostBand (cost : ℚ) : String :=
  if cost < 5000 then "Low"
  else if 5000 ≤ cost ∧ cost < 10000 then "Medium"
  else if 10000 ≤ cost ∧ cost < 15000 then "High"
  else "Very High"

/-- The region term in the words of the spec:
northeast 0, northwest −200, southeast 400, southwest 150. -/
def specRegionTerm (region : ℤ) : ℚ :=
  if region = 0 then 0
  else if region = 1 then -200
  else if region = 2 then 400
  else 150

section RoundingLemmas

theorem floor_le_roundHalfEven (x : ℚ) : ⌊x⌋ ≤ roundHalfEven x := by
  unfold roundHalfEven
  split_ifs <;> omega

theorem int_le_roundHalfEven (k : ℤ) (x : ℚ) (h : (k : ℚ) ≤ x) :
    k ≤ roundHalfEven x :=
  le_trans (Int.le_floor.mpr h) (floor_le_roundHalfEven x)

theorem roundHalfEven_le_add_half (x : ℚ) : (roundHalfEven x : ℚ) ≤ x + 1/2 := by
  have h1 : (⌊x⌋ : ℚ) ≤ x := Int.floor_le x
  unfold roundHalfEven
  split_ifs with ha hb hc <;> push_cast <;> linarith

theorem sub_half_le_roundHalfEven (x : ℚ) : x - 1/2 ≤ (roundHalfEven x : ℚ) := by
  have h2 : x < ⌊x⌋ + 1 := Int.lt_floor_add_one x
  unfold roundHalfEven
  split_ifs with ha hb hc <;> push_cast <;> linarith

theorem round2_le (x : ℚ) : round2 x ≤ x + 1/200 := by
  have := roundHalfEven_le_add_half (100 * x)
  unfold round2
  linarith

theorem le_round2 (x : ℚ) : x - 1/200 ≤ round2 x := by
  have := sub_half_le_roundHalfEven (100 * x)
  unfold round2
  linarith

theorem int_div_hundred_le_round2 (k : ℤ) (x : ℚ) (h : (k : ℚ) / 100 ≤ x) :
    (k : ℚ) / 100 ≤ round2 x := by
  have hk : (k : ℚ) ≤ 100 * x := by linarith
  have := int_le_roundHalfEven k (100 * x) hk
  have hc : (k : ℚ) ≤ (roundHalfEven (100 * x) : ℚ) := by exact_mod_cast this
  unfold round2
  linarith

theorem round2_is_centi_multiple (x : ℚ) : ∃ k : ℤ, round2 x = (k : ℚ) / 100 :=
  ⟨roundHalfEven (100 * x), rfl⟩

end RoundingLemmas

section EngineLemmas

theorem bmi_adjustment_nonneg (bmi : ℚ) : 0 ≤ (get_bmi_category bmi).2.2.2 := by
  unfold get_bmi_category
  split_ifs <;> norm_num

theorem region_factors_eq_of_valid (i : ApplicantInput)
    (hr : i.region = 0 ∨ i.region = 1 ∨ i.region = 2 ∨ i.region = 3) :
    ∃ rf, region_factors i.region = some rf ∧ -200 ≤ rf := by
  rcases hr with h | h | h | h
  · exact ⟨0, by rw [h]; rfl, by norm_num⟩
  · exact ⟨-200, by rw [h]; rfl, by norm_num⟩
  · exact ⟨400, by rw [h]; rfl, by norm_num⟩
  · exact ⟨150, by rw [h]; rfl, by norm_num⟩

theorem rawTotal_eq (i : ApplicantInput) (rf : ℚ)
    (hrf : region_factors i.region = some rf) :
    rawTotal i =
      some (2000 + (i.age : ℚ) * 100 + (get_bmi_category i.bmi).2.2.2 +
        (if i.smoker = 1 then (8500 : ℚ) else 0) + (i.children : ℚ) * 600 +
        rf + (if i.sex = 1 then (200 : ℚ) else 0)) := by
  unfold rawTotal
  rw [hrf]
  rfl

theorem predict_insurance_cost_eq (i : ApplicantInput) (v rf : ℚ)
    (hrf : region_factors i.region = some rf) :
    predict_insurance_cost i v =
      some (round2 ((2000 + (i.age : ℚ) * 100 +
          (get_bmi_category i.bmi).2.2.2 +
          (if i.smoker = 1 then (8500 : ℚ) else 0) +
          (i.children : ℚ) * 600 + rf +
          (if i.sex = 1 then (200 : ℚ) else 0)) * v),
        (get_bmi_category i.bmi).1, (get_bmi_category i.bmi).2.1,
        (get_bmi_category i.bmi).2.2.1) := by
  unfold predict_insurance_cost
  rw [hrf]

theorem engine_form (i : ApplicantInput)
    (hr : i.region = 0 ∨ i.region = 1 ∨ i.region = 2 ∨ i.region = 3) :
    ∃ raw, rawTotal i = some raw ∧ ∀ v,
      predict_insurance_cost i v =
        some (round2 (raw * v), (get_bmi_category i.bmi).1,
          (get_bmi_category i.bmi).2.1, (get_bmi_category i.bmi).2.2.1) := by
  obtain ⟨rf, hrf, _⟩ := region_factors_eq_of_valid i hr
  exact ⟨_, rawTotal_eq i rf hrf, fun v => predict_insurance_cost_eq i v rf hrf⟩

theorem rawTotal_lower (i : ApplicantInput) (h : InDomain i) :
    ∃ raw, rawTotal i = some raw ∧
      3600 + (if i.smoker = 1 then (8500 : ℚ) else 0) ≤ raw := by
  obtain ⟨h18, h80, hsex, hbmi1, hbmi2, hch0, hch10, hsm, hr⟩ := h
  have hage : (18 : ℚ) ≤ (i.age : ℚ) := by exact_mod_cast h18
  have hch : (0 : ℚ) ≤ (i.children : ℚ) := by exact_mod_cast hch0
  have hadj : 0 ≤ (get_bmi_category i.bmi).2.2.2 := bmi_adjustment_nonneg i.bmi
  have hgen : (0 : ℚ) ≤ (if i.sex = 1 then (200 : ℚ) else 0) := by
    split_ifs <;> norm_num
  obtain ⟨rf, hrf, hrf200⟩ := region_factors_eq_of_valid i hr
  exact ⟨_, rawTotal_eq i rf hrf, by linarith⟩

end EngineLemmas

/-- C1: for every in-domain applicant, the deterministic raw total of
`predict_insurance_cost` before the jitter is
2000 + age×100 + bmi adjustment + (8500 if smoker) + children×600 +
region term (0/−200/400/150) + (200 if male); with the jitter factor
fixed at 1.0, {age 35, sex 0, bmi 22.5, children 1, smoker 0, region 0}
scores 6100.00 and the same input with smoker 1 scores 14600.00. -/
theorem raw_total_formula_and_examples (i : ApplicantInput) (h : InDomain i) :
    rawTotal i =
      some (2000 + (i.age : ℚ) * 100 + (get_bmi_category i.bmi).2.2.2 +
        (if i.smoker = 1 then (8500 : ℚ) else 0) + (i.children : ℚ) * 600 +
        specRegionTerm i.region + (if i.sex = 1 then (200 : ℚ) else 0)) ∧
    (predict_insurance_cost ⟨35, 0, 45/2, 1, 0, 0⟩ 1).map Prod.fst =
      some 6100 ∧
    (predict_insurance_cost ⟨35, 0, 45/2, 1, 1, 0⟩ 1).map Prod.fst =
      some 14600 := by
  refine ⟨?_, ?_, ?_⟩
  · obtain ⟨_, _, _, _, _, _, _, _, hr⟩ := h
    rcases hr with hreg | hreg | hreg | hreg <;>
      rw [rawTotal_eq i _ (by rw [hreg]; rfl)] <;>
      rw [specRegionTerm, hreg] <;> norm_num
  · rw [predict_insurance_cost_eq ⟨35, 0, 45/2, 1, 0, 0⟩ 1 0 rfl]
    norm_num [get_bmi_category, round2, roundHalfEven]
  · rw [predict_insurance_cost_eq ⟨35, 0, 45/2, 1, 1, 0⟩ 1 0 rfl]
    norm_num [get_bmi_category, round2, roundHalfEven]

/-- C1 witness: the formula instantiated at the concrete in-domain input
{age 35, sex 0, bmi 22.5, children 1, smoker 0, region 0}. -/
theorem raw_total_formula_and_examples_witness :
    rawTotal ⟨35, 0, 45/2, 1, 0, 0⟩ =
      some (2000 + ((35 : ℤ) : ℚ) * 100 +
        (get_bmi_category (45/2)).2.2.2 +
        (if (0 : ℤ) = 1 then (8500 : ℚ) else 0) + ((1 : ℤ) : ℚ) * 600 +
        specRegionTerm 0 + (if (0 : ℤ) = 1 then (200 : ℚ) else 0)) ∧
    (predict_insurance_cost ⟨35, 0, 45/2, 1, 0, 0⟩ 1).map Prod.fst =
      some 6100 ∧
    (predict_insurance_cost ⟨35, 0, 45/2, 1, 1, 0⟩ 1).map Prod.fst =
      some 14600 :=
  raw_total_formula_and_examples ⟨35, 0, 45/2, 1, 0, 0⟩
    (by norm_num [InDomain])

/-- C2: `get_bmi_category` agrees with the spec's band table
(category and adjustment), with the asymmetric boundaries: 18.5 and 25.0
are Healthy, 16.0 is Underweight, 30.0 is Overweight. -/
theorem bmi_bands_agree (bmi : ℚ) :
    ((get_bmi_category bmi).1, (get_bmi_category bmi).2.2.2) =
      specBmiBand bmi ∧
    (get_bmi_category (37/2)).1 = "Healthy" ∧
    (get_bmi_category 25).1 = "Healthy" ∧
    (get_bmi_category 16).1 = "Underweight" ∧
    (get_bmi_category 30).1 = "Overweight" := by
  refine ⟨?_, by norm_num [get_bmi_category], by norm_num [get_bmi_category],
    by norm_num [get_bmi_category], by norm_num [get_bmi_category]⟩
  unfold get_bmi_category specBmiBand
  split_ifs with h1 h2 h3 h4 h5 h6 h7 <;> try rfl
  all_goals exfalso
  all_goals push_neg at *
  all_goals try simp_all
  all_goals linarith

/-- C3: `get_cost_level` agrees with the spec's left-inclusive cost
bands, with the stated boundary values. -/
theorem cost_bands_agree (cost : ℚ) :
    (get_cost_level cost).1 = specCostBand cost ∧
    (get_cost_level (499999/100)).1 = "Low" ∧
    (get_cost_level 5000).1 = "Medium" ∧
    (get_cost_level (999999/100)).1 = "Medium" ∧
    (get_cost_level 10000).1 = "High" ∧
    (get_cost_level (1499999/100)).1 = "High" ∧
    (get_cost_level 15000).1 = "Very High" := by
  refine ⟨?_, by norm_num [get_cost_level], by norm_num [get_cost_level],
    by norm_num [get_cost_level], by norm_num [get_cost_level],
    by norm_num [get_cost_level], by norm_num [get_cost_level]⟩
  unfold get_cost_level specCostBand
  split_ifs with h1 h2 h3 h4 h5 <;> try rfl
  all_goals exfalso
  all_goals push_neg at *
  all_goals try simp_all
  all_goals linarith

/-- C4: for every in-domain applicant and jitter factor v ∈ [0.9, 1.1],
the final cost is round2(raw_total × v), hence lies within
raw_total × [0.9, 1.1] up to the 1/200 rounding slack, and is an exact
multiple of 1/100. -/
theorem jitter_bounds (i : ApplicantInput) (v : ℚ) (h : InDomain i)
    (hv1 : 9/10 ≤ v) (hv2 : v ≤ 11/10) :
    ∃ raw, rawTotal i = some raw ∧
      (predict_insurance_cost i v).map Prod.fst = some (round2 (raw * v)) ∧
      9/10 * raw - 1/200 ≤ round2 (raw * v) ∧
      round2 (raw * v) ≤ 11/10 * raw + 1/200 ∧
      ∃ k : ℤ, round2 (raw * v) = (k : ℚ) / 100 := by
  obtain ⟨raw, hraw, hform⟩ := engine_form i h.2.2.2.2.2.2.2.2
  obtain ⟨raw2, hraw2, hlow⟩ := rawTotal_lower i h
  rw [hraw] at hraw2
  injection hraw2 with e
  subst e
  have hS : (0 : ℚ) ≤ (if i.smoker = 1 then (8500 : ℚ) else 0) := by
    split_ifs <;> norm_num
  have h0 : (0 : ℚ) ≤ raw := by linarith
  have hm1 : raw * (9/10) ≤ raw * v := mul_le_mul_of_nonneg_left hv1 h0
  have hm2 : raw * v ≤ raw * (11/10) := mul_le_mul_of_nonneg_left hv2 h0
  have hu := round2_le (raw * v)
  have hl := le_round2 (raw * v)
  refine ⟨raw, hraw, ?_, by linarith, by linarith,
    round2_is_centi_multiple (raw * v)⟩
  rw [hform v]
  rfl

/-- C4 witness: the jitter bounds at the concrete input
{age 35, sex 0, bmi 22.5, children 1, smoker 0, region 0} with v = 1. -/
theorem jitter_bounds_witness :
    ∃ raw, rawTotal ⟨35, 0, 45/2, 1, 0, 0⟩ = some raw ∧
      (predict_insurance_cost ⟨35, 0, 45/2, 1, 0, 0⟩ 1).map Prod.fst =
        some (round2 (raw * 1)) ∧
      9/10 * raw - 1/200 ≤ round2 (raw * 1) ∧
      round2 (raw * 1) ≤ 11/10 * raw + 1/200 ∧
      ∃ k : ℤ, round2 (raw * 1) = (k : ℚ) / 100 :=
  jitter_bounds ⟨35, 0, 45/2, 1, 0, 0⟩ 1 (by norm_num [InDomain])
    (by norm_num) (by norm_num)

/-- C5: for every in-domain applicant and jitter factor v ∈ [0.9, 1.1],
the predicted cost returned by `predict_insurance_cost` is strictly
positive. -/
theorem predicted_cost_positive (i : ApplicantInput) (v : ℚ)
    (h : InDomain i) (hv1 : 9/10 ≤ v) (hv2 : v ≤ 11/10) :
    ∃ r, predict_insurance_cost i v = some r ∧ 0 < r.1 := by
  obtain ⟨raw, hraw, hform⟩ := engine_form i h.2.2.2.2.2.2.2.2
  obtain ⟨raw2, hraw2, hlow⟩ := rawTotal_lower i h
  rw [hraw] at hraw2
  injection hraw2 with e
  subst e
  have hS : (0 : ℚ) ≤ (if i.smoker = 1 then (8500 : ℚ) else 0) := by
    split_ifs <;> norm_num
  have h0 : (0 : ℚ) ≤ raw := by linarith
  have hm1 : raw * (9/10) ≤ raw * v := mul_le_mul_of_nonneg_left hv1 h0
  have hge := int_div_hundred_le_round2 324000 (raw * v)
    (by push_cast; linarith)
  refine ⟨_, hform v, ?_⟩
  show 0 < round2 (raw * v)
  push_cast at hge
  linarith

/-- C5 witness: strict positivity at the concrete input
{age 35, sex 0, bmi 22.5, children 1, smoker 0, region 0} with v = 1. -/
theorem predicted_cost_positive_witness :
    ∃ r, predict_insurance_cost ⟨35, 0, 45/2, 1, 0, 0⟩ 1 = some r ∧
      0 < r.1 :=
  predicted_cost_positive ⟨35, 0, 45/2, 1, 0, 0⟩ 1 (by norm_num [InDomain])
    (by norm_num) (by norm_num)

/-- C6: for every in-domain applicant and any jitter factor, `predict`
takes the success branch and its result carries the predicted cost, the
cost level and recommendation derived from it, and the BMI category. -/
theorem predict_always_success (i : ApplicantInput) (v : ℚ)
    (h : InDomain i) :
    ∃ r, predict i v = PredictOutcome.success r ∧
      r.cost_level = (get_cost_level r.predicted_cost).1 ∧
      r.recommendation = (get_cost_level r.predicted_cost).2.2.2 ∧
      r.bmi_category = (get_bmi_category i.bmi).1 := by
  obtain ⟨raw, hraw, hform⟩ := engine_form i h.2.2.2.2.2.2.2.2
  refine ⟨⟨round2 (raw * v), (get_cost_level (round2 (raw * v))).1,
    (get_cost_level (round2 (raw * v))).2.1,
    (get_cost_level (round2 (raw * v))).2.2.1,
    (get_cost_level (round2 (raw * v))).2.2.2,
    (get_bmi_category i.bmi).1, (get_bmi_category i.bmi).2.1,
    (get_bmi_category i.bmi).2.2.1,
    "Advanced Insurance Underwriting System"⟩, ?_, rfl, rfl, rfl⟩
  unfold predict
  rw [hform v]

/-- C6 witness: the success branch at the concrete input
{age 35, sex 0, bmi 22.5, children 1, smoker 0, region 0} with v = 1. -/
theorem predict_always_success_witness :
    ∃ r, predict ⟨35, 0, 45/2, 1, 0, 0⟩ 1 = PredictOutcome.success r ∧
      r.cost_level = (get_cost_level r.predicted_cost).1 ∧
      r.recommendation = (get_cost_level r.predicted_cost).2.2.2 ∧
      r.bmi_category = (get_bmi_category (45/2)).1 :=
  predict_always_success ⟨35, 0, 45/2, 1, 0, 0⟩ 1 (by norm_num [InDomain])

/-- C7: the recommendation text is a function of the cost level alone:
two costs classified to the same level get the identical recommendation
string. -/
theorem recommendation_function_of_level (c₁ c₂ : ℚ)
    (h : (get_cost_level c₁).1 = (get_cost_level c₂).1) :
    (get_cost_level c₁).2.2.2 = (get_cost_level c₂).2.2.2 := by
  unfold get_cost_level at h ⊢
  split_ifs at h ⊢ <;> first | rfl | (exfalso; simp_all)

/-- C7 witness: costs 0 and 1 are both Low, so they share the Low
recommendation string. -/
theorem recommendation_function_of_level_witness :
    (get_cost_level 0).2.2.2 = (get_cost_level 1).2.2.2 :=
  recommendation_function_of_level 0 1 (by norm_num [get_cost_level])

/-- C8: with the jitter factor an explicit parameter, the engine is
deterministic: two runs of `predict` on the same input and the same
jitter value agree on every result field. -/
theorem predict_deterministic (i : ApplicantInput) (v : ℚ)
    (r₁ r₂ : PredictionOk)
    (h₁ : predict i v = PredictOutcome.success r₁)
    (h₂ : predict i v = PredictOutcome.success r₂) :
    r₁.predicted_cost = r₂.predicted_cost ∧
    r₁.cost_level = r₂.cost_level ∧
    r₁.bmi_category = r₂.bmi_category ∧
    r₁.recommendation = r₂.recommendation := by
  rw [h₁] at h₂
  injection h₂ with e
  rw [e]
  exact ⟨rfl, rfl, rfl, rfl⟩

theorem predict_sample_eq :
    predict ⟨35, 0, 45/2, 1, 0, 0⟩ 1 = PredictOutcome.success sampleResult := by
  unfold predict sampleResult
  rw [predict_insurance_cost_eq ⟨35, 0, 45/2, 1, 0, 0⟩ 1 0 rfl]
  norm_num [get_bmi_category, get_cost_level, round2, roundHalfEven]

/-- C8 witness: two evaluations of `predict` on the sample applicant
with the jitter fixed at 1 both yield `sampleResult`, so the fields
agree. -/
theorem predict_deterministic_witness :
    sampleResult.predicted_cost = sampleResult.predicted_cost ∧
    sampleResult.cost_level = sampleResult.cost_level ∧
    sampleResult.bmi_category = sampleResult.bmi_category ∧
    sampleResult.recommendation = sampleResult.recommendation :=
  predict_deterministic ⟨35, 0, 45/2, 1, 0, 0⟩ 1 sampleResult sampleResult
    predict_sample_eq predict_sample_eq

/-- C9: for every in-domain smoker and jitter factor v ∈ [0.9, 1.1], the
predicted cost is at least 10890, so the cost level is High or
Very High — never Low or Medium. -/
theorem smoker_cost_high (i : ApplicantInput) (v : ℚ) (h : InDomain i)
    (hs : i.smoker = 1) (hv1 : 9/10 ≤ v) (hv2 : v ≤ 11/10) :
    ∃ r, predict_insurance_cost i v = some r ∧ (10890 : ℚ) ≤ r.1 ∧
      ((get_cost_level r.1).1 = "High" ∨
        (get_cost_level r.1).1 = "Very High") := by
  obtain ⟨raw, hraw, hform⟩ := engine_form i h.2.2.2.2.2.2.2.2
  obtain ⟨raw2, hraw2, hlow⟩ := rawTotal_lower i h
  rw [hraw] at hraw2
  injection hraw2 with e
  subst e
  rw [hs] at hlow
  norm_num at hlow
  have h0 : (0 : ℚ) ≤ raw := by linarith
  have hm1 : raw * (9/10) ≤ raw * v := mul_le_mul_of_nonneg_left hv1 h0
  have hge := int_div_hundred_le_round2 1089000 (raw * v)
    (by push_cast; linarith)
  push_cast at hge
  have hc : (10890 : ℚ) ≤ round2 (raw * v) := by linarith
  refine ⟨_, hform v, hc, ?_⟩
  show (get_cost_level (round2 (raw * v)) ).1 = "High" ∨
    (get_cost_level (round2 (raw * v))).1 = "Very High"
  unfold get_cost_level
  rcases lt_or_le (round2 (raw * v)) 15000 with h15 | h15
  · left
    rw [if_neg (by linarith), if_neg (by linarith), if_pos h15]
  · right
    rw [if_neg (by linarith), if_neg (by linarith),
      if_neg (not_lt.mpr h15)]

/-- C9 witness: the smoker bound at
{age 35, sex 0, bmi 22.5, children 1, smoker 1, region 0} with v = 1. -/
theorem smoker_cost_high_witness :
    ∃ r, predict_insurance_cost ⟨35, 0, 45/2, 1, 1, 0⟩ 1 = some r ∧
      (10890 : ℚ) ≤ r.1 ∧
      ((get_cost_level r.1).1 = "High" ∨
        (get_cost_level r.1).1 = "Very High") :=
  smoker_cost_high ⟨35, 0, 45/2, 1, 1, 0⟩ 1 (by norm_num [InDomain]) rfl
    (by norm_num) (by norm_num)

/-- C10: `predict` always returns a value: every run is either the
success dictionary or the caught-exception dictionary, and an invalid
region key yields the failure value carrying the key-error message. -/
theorem predict_never_raises (i : ApplicantInput) (v : ℚ) :
    ((∃ r, predict i v = PredictOutcome.success r) ∨
      (∃ e, predict i v = PredictOutcome.failure e)) ∧
    (¬(i.region = 0 ∨ i.region = 1 ∨ i.region = 2 ∨ i.region = 3) →
      predict i v = PredictOutcome.failure (keyErrorMessage i.region)) := by
  constructor
  · cases hp : predict i v with
    | success r => exact Or.inl ⟨r, rfl⟩
    | failure e => exact Or.inr ⟨e, rfl⟩
  · intro hbad
    push_neg at hbad
    obtain ⟨hr0, hr1, hr2, hr3⟩ := hbad
    have hnone : region_factors i.region = none := by
      unfold region_factors
      rw [if_neg hr0, if_neg hr1, if_neg hr2, if_neg hr3]
    have hpc : predict_insurance_cost i v = none := by
      unfold predict_insurance_cost
      rw [hnone]
    unfold predict
    rw [hpc]

/-- C10 witness: region 5 is an invalid key, so `predict` returns the
failure value with the key-error message. -/
theorem predict_never_raises_witness :
    predict ⟨35, 0, 45/2, 1, 0, 5⟩ 1 =
      PredictOutcome.failure (keyErrorMessage 5) :=
  (predict_never_raises ⟨35, 0, 45/2, 1, 0, 5⟩ 1).2 (by decide)

end Insurance
